import Mathlib

/-!
Verification of the QChem flow-composition makers in
`src/atomate2/qchem/flows/core.py`: `DoubleOptMaker`, `FrequencyOptMaker`
and `FrequencyOptFlatteningMaker`.

Graph construction is shallowly embedded: building a flow is a pure
computation over job descriptors.  Values that only exist after execution
are represented by unresolved output references (a job uuid plus a
field-access path); build-time Python errors are made explicit with
`Except PyError`.  Caller-owned `Molecule` objects live in an explicit
object store `MolStore` so that mutation (or its absence) is observable.
-/

namespace Atomate2QChem

/-- A 3-component displacement / position vector (exact arithmetic). -/
abbrev Vec3 : Type := Rat × Rat × Rat

/-- Modelled from the spec: the molecular Structure collaborator (spec section 3
and section 6) is a snapshot of atom positions supplying a
translate-sites-style mutation.  Only its site list is relevant here. -/
structure Molecule where
  sites : List Vec3
deriving Repr, DecidableEq, Inhabited

/-- Translate the sites at the given indices by `v`, leaving the others. -/
def Molecule.translate (m : Molecule) (indices : List Nat) (v : Vec3) : Molecule :=
  ⟨(m.sites.enum).map fun p =>
      if indices.contains p.1 then
        (p.2.1 + v.1, p.2.2.1 + v.2.1, p.2.2.2 + v.2.2)
      else p.2⟩

/-- The store of caller-visible `Molecule` objects: index = object identity.
Python-level in-place mutation is an update of one entry; `deepcopy`
allocates a fresh entry. -/
structure MolStore where
  mols : List Molecule
deriving Repr, DecidableEq, Inhabited

/-- In-place `translate_sites` on the object with identity `id`
(the mutation primitive the molecular-structure collaborator supplies). -/
def MolStore.translate_sites (st : MolStore) (id : Nat) (indices : List Nat)
    (v : Vec3) : MolStore :=
  ⟨(st.mols.enum).map fun p =>
      if p.1 = id then p.2.translate indices v else p.2⟩

/-- `deepcopy` of the object with identity `id`: allocate a fresh object with
the same sites and return its identity. -/
def MolStore.deepcopy (st : MolStore) (id : Nat) : MolStore × Nat :=
  (⟨st.mols ++ [st.mols.getD id default]⟩, st.mols.length)

/-- One step of a field-access path on a not-yet-computed job output:
attribute access or indexing. -/
inductive Access
  | attr (field : String)
  | item (idx : Nat)
deriving Repr, DecidableEq

/-- Modelled from the spec: an Output Reference (spec section 3) is a
(job, field-path) pair; holding one does not require the job to have run,
and only the execution engine ever materializes it into a concrete value. -/
structure OutputRef where
  jobUuid : Nat
  accesses : List Access
deriving Repr, DecidableEq

/-- Attribute projection on an output reference (lazy, always succeeds). -/
def OutputRef.getAttr (r : OutputRef) (field : String) : OutputRef :=
  ⟨r.jobUuid, r.accesses ++ [Access.attr field]⟩

/-- Index projection on an output reference (lazy, always succeeds). -/
def OutputRef.getItem (r : OutputRef) (idx : Nat) : OutputRef :=
  ⟨r.jobUuid, r.accesses ++ [Access.item idx]⟩

/-- Build-time Python exceptions relevant to these makers. -/
inductive PyError
  | typeError (msg : String)
  | attributeError (msg : String)
deriving Repr, DecidableEq

/-- The message of the exception raised by ordering comparison between an
unresolved output reference and an integer. -/
def refLtIntMsg : String :=
  "unsupported operand types for comparison: OutputReference and int"

/-- Modelled from the spec: an output reference is an unresolved future at
build time (spec sections 3 and 9), so it has no numeric value; Python
ordered comparison of such an object with an `int` raises `TypeError`. -/
def OutputRef.ltInt (_r : OutputRef) (_n : Int) : Except PyError Bool :=
  .error (.typeError refLtIntMsg)

/-- A build-time Structure value: either a concrete caller-owned object
(by identity in the `MolStore`) or an unresolved output reference. -/
inductive BVal
  | obj (id : Nat)
  | ref (r : OutputRef)
deriving Repr, DecidableEq

/-- A build-time `prev_dir` value: absent, a concrete path, or a reference. -/
inductive DirVal
  | nodir
  | path (p : String)
  | ref (r : OutputRef)
deriving Repr, DecidableEq

/-- A job descriptor: identity, display name, and the (possibly deferred)
Structure and prior-directory inputs it was wired with. -/
structure Job where
  uuid : Nat
  name : String
  structInput : BVal
  prevDir : DirVal
deriving Repr, DecidableEq

/-- The reference to a job's whole future output (`job.output` in jobflow). -/
def Job.outputRef (j : Job) : OutputRef := ⟨j.uuid, []⟩

/-- A flow's designated output: a single reference or a keyed mapping. -/
inductive FlowOutput
  | single (r : OutputRef)
  | mapping (entries : List (String × OutputRef))
deriving Repr, DecidableEq

/-- A flow: ordered jobs, a designated output, and a name. -/
structure Flow where
  jobs : List Job
  output : FlowOutput
  name : String
deriving Repr, DecidableEq

/-- Modelled from the spec: a stage Maker (spec section 6) exposes
`make(structure, prior_results_location) -> Job`; the job it returns carries
the maker's configured base name.  `OptMaker` and `FreqMaker` themselves are
not under `src/`. -/
structure BaseQCMaker where
  name : String
deriving Repr, DecidableEq

/-- Modelled from the spec: a stage maker builds one job wired with the given
(possibly deferred) Structure and prior-directory inputs; `uuid` is the fresh
identity the enclosing build assigns. -/
def BaseQCMaker.make (m : BaseQCMaker) (mol : BVal) (prev_dir : DirVal)
    (uuid : Nat) : Job :=
  { uuid := uuid, name := m.name, structInput := mol, prevDir := prev_dir }

/-! ### `DoubleOptMaker` (core.py lines 41-103) -/

/-- Configuration of `DoubleOptMaker` (core.py lines 56-58).  The declared
dataclass fields are `name`, `opt_maker1` (optional) and `opt_maker2`. -/
structure DoubleOptMaker where
  name : String := "double opt"
  opt_maker1 : Option BaseQCMaker := some ⟨"opt"⟩
  opt_maker2 : BaseQCMaker := ⟨"opt"⟩
deriving Repr, DecidableEq

/-- `DoubleOptMaker.make` (core.py lines 60-89).  If `opt_maker1` is set
(Python truthiness: any maker instance is truthy, `None` is falsy) a first
job is built, suffixed " 1", and the working molecule / prev_dir are
redirected to its future outputs; the second job is built from whatever is
current and suffixed " 2" unconditionally (line 86 sits outside the `if`).
The caller's store is returned alongside: no store entry is ever touched. -/
def DoubleOptMaker.make (self : DoubleOptMaker) (store : MolStore)
    (molecule : Nat) (prev_dir : DirVal) : Flow × MolStore :=
  match self.opt_maker1 with
  | some m1 =>
    let opt1 := m1.make (BVal.obj molecule) prev_dir 0
    let opt1 := { opt1 with name := opt1.name ++ " 1" }
    let mol2 := BVal.ref (opt1.outputRef.getAttr "optimized_molecule")
    let pd2 := DirVal.ref (opt1.outputRef.getAttr "dir_name")
    let opt2 := self.opt_maker2.make mol2 pd2 1
    let opt2 := { opt2 with name := opt2.name ++ " 2" }
    ({ jobs := [opt1, opt2], output := FlowOutput.single opt2.outputRef,
       name := self.name }, store)
  | none =>
    let opt2 := self.opt_maker2.make (BVal.obj molecule) prev_dir 0
    let opt2 := { opt2 with name := opt2.name ++ " 2" }
    ({ jobs := [opt2], output := FlowOutput.single opt2.outputRef,
       name := self.name }, store)

/-- The dataclass field names accepted by the `DoubleOptMaker` constructor. -/
def doubleOptMakerFields : List String := ["name", "opt_maker1", "opt_maker2"]

/-- Calling a Python dataclass constructor with keyword arguments: any
keyword that is not a declared field raises `TypeError`. -/
def dataclassKwargCheck (fields kwargs : List String) : Except PyError Unit :=
  match kwargs.find? (fun k => !(fields.contains k)) with
  | some k => .error (.typeError ("init got an unexpected keyword argument " ++ k))
  | none => .ok ()

/-- `DoubleOptMaker.from_opt_maker` (core.py lines 91-103): invokes the class
constructor as `cls(relax_maker1=..., relax_maker2=...)`, keyword names that
are not fields of the dataclass (its fields are `opt_maker1` / `opt_maker2`),
so the call raises before any instance exists.  The `.ok` branch models the
construction that would occur if the keywords were accepted; it is dead. -/
def DoubleOptMaker.from_opt_maker (opt_maker : BaseQCMaker) :
    Except PyError DoubleOptMaker :=
  match dataclassKwargCheck doubleOptMakerFields ["relax_maker1", "relax_maker2"] with
  | .error e => .error e
  | .ok _ => .ok { opt_maker1 := some opt_maker, opt_maker2 := opt_maker }

/-! ### `FrequencyOptMaker` (core.py lines 107-155) -/

/-- Configuration of `FrequencyOptMaker` (core.py lines 121-123). -/
structure FrequencyOptMaker where
  name : String := "frequency flattening opt"
  opt_maker : BaseQCMaker := ⟨"opt"⟩
  freq_maker : BaseQCMaker := ⟨"freq"⟩
deriving Repr, DecidableEq

/-- `FrequencyOptMaker.make` (core.py lines 125-155): an optimization job
(suffixed " 1"), a frequency job (suffixed " 1") fed by the optimization
job's future `optimized_molecule` / `dir_name`, and a mapping output with
exactly the keys "opt" and "freq".  Lines 152-153 derive two further
references (`frequency_modes`, `frequencies`) that are never used; they are
pure projections and are reproduced here as dead bindings. -/
def FrequencyOptMaker.make (self : FrequencyOptMaker) (store : MolStore)
    (molecule : Nat) (prev_dir : DirVal) : Flow × MolStore :=
  let opt := self.opt_maker.make (BVal.obj molecule) prev_dir 0
  let opt := { opt with name := opt.name ++ " 1" }
  let mol2 := BVal.ref (opt.outputRef.getAttr "optimized_molecule")
  let pd2 := DirVal.ref (opt.outputRef.getAttr "dir_name")
  let freq := self.freq_maker.make mol2 pd2 1
  let freq := { freq with name := freq.name ++ " 1" }
  let _modes := (((freq.outputRef.getAttr "calcs_reversed").getItem 0).getAttr
      "output").getAttr "frequency_modes"
  let _frequencies := (((freq.outputRef.getAttr "calcs_reversed").getItem 0).getAttr
      "output").getAttr "frequencies"
  ({ jobs := [opt, freq],
     output := FlowOutput.mapping [("opt", opt.outputRef), ("freq", freq.outputRef)],
     name := self.name }, store)

/-! ### `FrequencyOptFlatteningMaker` (core.py lines 158-230) -/

/-- Configuration of `FrequencyOptFlatteningMaker` (core.py lines 172-176). -/
structure FrequencyOptFlatteningMaker where
  name : String := "frequency flattening opt"
  opt_maker : BaseQCMaker := ⟨"opt"⟩
  freq_maker : BaseQCMaker := ⟨"freq"⟩
  scale : Rat := 1
  max_ffopt_runs : Nat := 10
deriving Repr, DecidableEq

/-- `self.get("scale", 1.0)` (core.py line 214): the maker is a plain
dataclass and declares no `get` method, so attribute lookup raises. -/
def FrequencyOptFlatteningMaker.dataclassGetScale
    (_self : FrequencyOptFlatteningMaker) : Except PyError Rat :=
  .error (.attributeError
    "FrequencyOptFlatteningMaker object has no attribute get")

/-- `range(molecule)` (core.py line 212): `range` needs an integer, and at
every reachable call `molecule` is an unresolved output reference (a
concrete pymatgen `Molecule` is not an integer either). -/
def rangeOfBVal : BVal → Except PyError Nat
  | .obj _ => .error (.typeError
      "Molecule object cannot be interpreted as an integer")
  | .ref _ => .error (.typeError
      "OutputReference object cannot be interpreted as an integer")

/-- `deepcopy(molecule)` on a build-time value: copying an unresolved
reference does not touch the molecule store; copying a concrete object
allocates a fresh one. -/
def BVal.deepcopy (v : BVal) (store : MolStore) : MolStore × BVal :=
  match v with
  | .obj i => let p := store.deepcopy i ; (p.1, BVal.obj p.2)
  | .ref r => (store, BVal.ref r)

/-- The mutable locals of the while loop at core.py lines 209-228. -/
structure LoopState where
  store : MolStore
  molecule : BVal
  prev_dir : DirVal
  modes : OutputRef
  frequencies : OutputRef
  ffopt_runs : Nat
  jobs : List Job
  nextUuid : Nat
  lastOpt : Job
  lastFreq : Job
deriving Repr, DecidableEq

/-- The `for ii in range(...)` body of core.py lines 212-214, iterated from
index `ii` for `k` further passes.  Each pass first evaluates
`np.array(mode[ii])` (a lazy projection) and then `self.get("scale", 1.0)`,
which raises on its first evaluation; the `translate_sites` application on
the copy and the remaining indices are dead code past that raise (and on
every reachable call the copy is itself an unresolved reference, so the
method call could not succeed either). -/
def FrequencyOptFlatteningMaker.perturbSteps
    (self : FrequencyOptFlatteningMaker) (mode : OutputRef) (mol_copy : BVal) :
    MolStore → Nat → Nat → Except PyError MolStore
  | store, _, 0 => .ok store
  | store, ii, k + 1 => do
      let _vec := mode.getItem ii
      let _scale ← self.dataclassGetScale
      self.perturbSteps mode mol_copy store (ii + 1) k

/-- The body of the while loop (core.py lines 210-228): take the lowest
mode, deepcopy the current molecule, perturb the copy per atom, then build
the next optimization / frequency job pair (suffixed with the incremented
`ffopt_runs`) and rewire the loop locals to their future outputs. -/
def FrequencyOptFlatteningMaker.loopBody
    (self : FrequencyOptFlatteningMaker) (st : LoopState) :
    Except PyError LoopState := do
  let mode := st.modes.getItem 0
  let copied := st.molecule.deepcopy st.store
  let n ← rangeOfBVal st.molecule
  let store2 ← self.perturbSteps mode copied.2 copied.1 0 n
  let molecule := copied.2
  let ffopt_runs := st.ffopt_runs + 1
  let opt := self.opt_maker.make molecule st.prev_dir st.nextUuid
  let opt := { opt with name := opt.name ++ " " ++ toString ffopt_runs }
  let jobs := st.jobs ++ [opt]
  let molecule := BVal.ref (opt.outputRef.getAttr "optimized_molecule")
  let prev_dir := DirVal.ref (opt.outputRef.getAttr "dir_name")
  let freq := self.freq_maker.make molecule prev_dir (st.nextUuid + 1)
  let freq := { freq with name := freq.name ++ " " ++ toString ffopt_runs }
  let jobs := jobs ++ [freq]
  let modes := (((freq.outputRef.getAttr "calcs_reversed").getItem 0).getAttr
      "output").getAttr "frequency_modes"
  let frequencies := (((freq.outputRef.getAttr "calcs_reversed").getItem 0).getAttr
      "output").getAttr "frequencies"
  .ok { store := store2, molecule := molecule, prev_dir := prev_dir,
        modes := modes, frequencies := frequencies, ffopt_runs := ffopt_runs,
        jobs := jobs, nextUuid := st.nextUuid + 2, lastOpt := opt,
        lastFreq := freq }

/-- The while loop of core.py line 209, with an explicit fuel bound.  Python
evaluates the guard left to right: `frequencies[0] < 0` first (which raises
on an unresolved reference), then `ffopt_runs < self.max_ffopt_runs`.  The
Python loop performs at most `max_ffopt_runs` guard evaluations, so fuel
`max_ffopt_runs + 1` never runs out before the guard fails. -/
def FrequencyOptFlatteningMaker.loop (self : FrequencyOptFlatteningMaker) :
    Nat → LoopState → Except PyError LoopState
  | 0, st => .ok st
  | fuel + 1, st =>
    match (st.frequencies.getItem 0).ltInt 0 with
    | .error e => .error e
    | .ok c1 =>
      if c1 && decide (st.ffopt_runs < self.max_ffopt_runs) then
        match self.loopBody st with
        | .error e => .error e
        | .ok st2 => self.loop fuel st2
      else .ok st

/-- `FrequencyOptFlatteningMaker.make` (core.py lines 178-230): build the
first optimization / frequency pair (suffixed " 1"), derive the mode and
frequency references, and enter the while loop; on normal exit return the
flow whose mapping output binds "opt_latest" / "freq_latest" to the last
pair.  An exception propagates to the caller; the store is returned as the
raise left it (no reachable path writes it). -/
def FrequencyOptFlatteningMaker.make (self : FrequencyOptFlatteningMaker)
    (store : MolStore) (molecule : Nat) (prev_dir : DirVal) :
    Except PyError Flow × MolStore :=
  let opt := self.opt_maker.make (BVal.obj molecule) prev_dir 0
  let opt := { opt with name := opt.name ++ " 1" }
  let mol2 := BVal.ref (opt.outputRef.getAttr "optimized_molecule")
  let pd2 := DirVal.ref (opt.outputRef.getAttr "dir_name")
  let freq := self.freq_maker.make mol2 pd2 1
  let freq := { freq with name := freq.name ++ " 1" }
  let modes := (((freq.outputRef.getAttr "calcs_reversed").getItem 0).getAttr
      "output").getAttr "frequency_modes"
  let frequencies := (((freq.outputRef.getAttr "calcs_reversed").getItem 0).getAttr
      "output").getAttr "frequencies"
  let st0 : LoopState :=
    { store := store, molecule := mol2, prev_dir := pd2, modes := modes,
      frequencies := frequencies, ffopt_runs := 1, jobs := [opt, freq],
      nextUuid := 2, lastOpt := opt, lastFreq := freq }
  match self.loop (self.max_ffopt_runs + 1) st0 with
  | .error e => (.error e, store)
  | .ok st =>
    (.ok { jobs := st.jobs,
           output := FlowOutput.mapping
             [("opt_latest", st.lastOpt.outputRef),
              ("freq_latest", st.lastFreq.outputRef)],
           name := self.name }, st.store)

/-! ### Concrete sample inputs -/

/-- A three-site sample molecule. -/
def sampleMolecule : Molecule := ⟨[(0, 0, 0), (1, 0, 0), (0, 1, 0)]⟩

/-- A store holding the sample molecule as object 0. -/
def sampleStore : MolStore := ⟨[sampleMolecule]⟩

/-- A double-stage configuration with the first-stage sub-maker absent. -/
def noPreStageMaker : DoubleOptMaker :=
  { opt_maker1 := none, opt_maker2 := ⟨"opt"⟩ }

/-- An iterative configuration with iteration cap 1. -/
def capOneMaker : FrequencyOptFlatteningMaker := { max_ffopt_runs := 1 }

/-! ### Helper lemmas -/

/-- With any positive fuel, the while loop raises on its first guard
evaluation: the comparison of the unresolved frequency reference with 0. -/
theorem flatteningLoop_succ_err (self : FrequencyOptFlatteningMaker)
    (fuel : Nat) (st : LoopState) :
    self.loop (fuel + 1) st = Except.error (PyError.typeError refLtIntMsg) := by
  simp [FrequencyOptFlatteningMaker.loop, OutputRef.ltInt]

/-- `FrequencyOptFlatteningMaker.make` raises on every input, leaving the
caller's store untouched. -/
theorem flatteningMake_eq_err (self : FrequencyOptFlatteningMaker)
    (store : MolStore) (molecule : Nat) (prev_dir : DirVal) :
    self.make store molecule prev_dir =
      (Except.error (PyError.typeError refLtIntMsg), store) := by
  simp [FrequencyOptFlatteningMaker.make, flatteningLoop_succ_err]

/-! ### Claim theorems -/

/-- Claim C1: the claim states that `make` of the iterative composite always
succeeds, building a static cap-bounded unrolled chain and deferring the
convergence decision to execution time.  The code instead evaluates the
convergence guard `frequencies[0] < 0` at build time on an unresolved output
reference, which raises `TypeError` for every input, so `make` never returns
a flow (code bug: the guard is evaluated eagerly, not deferred). -/
theorem C1_flattening_make_always_raises
    (self : FrequencyOptFlatteningMaker) (store : MolStore) (molecule : Nat)
    (prev_dir : DirVal) :
    (self.make store molecule prev_dir).1 =
      Except.error (PyError.typeError refLtIntMsg) := by
  simp [flatteningMake_eq_err]

/-- Claim C2: the claim states the flow returned by the iterative composite
contains at most `2 * N` jobs for cap `N ≥ 1`.  The code never returns a
flow at all (it raises at the build-time guard), so no flow - of any size -
is produced (code bug). -/
theorem C2_flattening_make_returns_no_flow
    (self : FrequencyOptFlatteningMaker) (store : MolStore) (molecule : Nat)
    (prev_dir : DirVal) (f : Flow) :
    (self.make store molecule prev_dir).1 ≠ Except.ok f := by
  simp [flatteningMake_eq_err]

/-- Claim C3: the claim states the non-convergent-iteration perturbation
translates atom `i` by `scale * mode_vector[i]`.  The loop body raises on
every input before any translation: `range(molecule)` is applied to a
non-integer (an unresolved reference, or a Molecule), and even past that the
scale lookup `self.get("scale", 1.0)` would raise `AttributeError` (code
bug: no displacement is ever applied). -/
theorem C3_perturbation_body_always_raises
    (self : FrequencyOptFlatteningMaker) (st : LoopState) :
    ∃ msg, self.loopBody st = Except.error (PyError.typeError msg) := by
  cases h : st.molecule with
  | obj i =>
    exact ⟨"Molecule object cannot be interpreted as an integer",
      by simp [FrequencyOptFlatteningMaker.loopBody, rangeOfBVal, h,
        Bind.bind, Except.bind]⟩
  | ref r =>
    exact ⟨"OutputReference object cannot be interpreted as an integer",
      by simp [FrequencyOptFlatteningMaker.loopBody, rangeOfBVal, h,
        Bind.bind, Except.bind]⟩

/-- Claim C4: the claim states `make` terminates at a converged iteration or
at the cap, in both cases returning a flow whose output maps "opt_latest" /
"freq_latest" to the last pair.  Evaluated at a concrete three-atom molecule
with the default configuration (cap 10), `make` raises `TypeError` instead,
and no flow carrying that output mapping exists (code bug). -/
theorem C4_no_terminal_output_mapping :
    (FrequencyOptFlatteningMaker.make {} sampleStore 0 DirVal.nodir).1 =
      Except.error (PyError.typeError refLtIntMsg) ∧
    ¬ ∃ f : Flow,
        (FrequencyOptFlatteningMaker.make {} sampleStore 0 DirVal.nodir).1 =
          Except.ok f ∧
        ∃ r1 r2, f.output =
          FlowOutput.mapping [("opt_latest", r1), ("freq_latest", r2)] := by
  constructor
  · simp [flatteningMake_eq_err]
  · rintro ⟨f, hf, -⟩
    rw [flatteningMake_eq_err] at hf
    exact Except.noConfusion hf

/-- Claim C5: the claim states that with cap 1 `make` builds exactly the two
jobs "opt 1" / "freq 1" and returns them under "opt_latest" / "freq_latest".
Python evaluates the guard `frequencies[0] < 0` before the cap test
`ffopt_runs < 1`, so even at cap 1 `make` raises `TypeError` at the concrete
sample input instead of returning the two-job flow (code bug). -/
theorem C5_cap_one_make_still_raises :
    (capOneMaker.make sampleStore 0 DirVal.nodir).1 =
      Except.error (PyError.typeError refLtIntMsg) ∧
    ∀ f : Flow,
      (capOneMaker.make sampleStore 0 DirVal.nodir).1 ≠ Except.ok f := by
  refine ⟨by simp [flatteningMake_eq_err], fun f hf => ?_⟩
  rw [flatteningMake_eq_err] at hf
  exact Except.noConfusion hf

/-- Claim C6: with the first-stage sub-maker present, the double-stage
composite builds exactly two jobs named `<base> 1` and `<base> 2`, the
second job's Structure input is the first job's future optimized-molecule
output, and the flow's designated output is the second job's output. -/
theorem C6_double_opt_two_chained_jobs (self : DoubleOptMaker)
    (m1 : BaseQCMaker) (h : self.opt_maker1 = some m1) (store : MolStore)
    (molecule : Nat) (prev_dir : DirVal) :
    ∃ j1 j2 : Job,
      (self.make store molecule prev_dir).1.jobs = [j1, j2] ∧
      j1.name = m1.name ++ " 1" ∧
      j2.name = self.opt_maker2.name ++ " 2" ∧
      j2.structInput = BVal.ref (j1.outputRef.getAttr "optimized_molecule") ∧
      (self.make store molecule prev_dir).1.output =
        FlowOutput.single j2.outputRef := by
  refine ⟨⟨0, m1.name ++ " 1", BVal.obj molecule, prev_dir⟩,
    ⟨1, self.opt_maker2.name ++ " 2",
      BVal.ref ⟨0, [Access.attr "optimized_molecule"]⟩,
      DirVal.ref ⟨0, [Access.attr "dir_name"]⟩⟩, ?_, rfl, rfl, ?_, ?_⟩ <;>
    simp [DoubleOptMaker.make, h, BaseQCMaker.make, Job.outputRef,
      OutputRef.getAttr]

/-- Witness for C6 at the default configuration and the sample molecule. -/
theorem C6_witness :
    ∃ j1 j2 : Job,
      (({} : DoubleOptMaker).make sampleStore 0 DirVal.nodir).1.jobs =
        [j1, j2] ∧
      j1.name = (⟨"opt"⟩ : BaseQCMaker).name ++ " 1" ∧
      j2.name = ({} : DoubleOptMaker).opt_maker2.name ++ " 2" ∧
      j2.structInput = BVal.ref (j1.outputRef.getAttr "optimized_molecule") ∧
      (({} : DoubleOptMaker).make sampleStore 0 DirVal.nodir).1.output =
        FlowOutput.single j2.outputRef :=
  C6_double_opt_two_chained_jobs {} ⟨"opt"⟩ rfl sampleStore 0 DirVal.nodir

/-- Claim C7 counterexample: with the first-stage sub-maker absent and base
name "opt", the single built job is named "opt 2", not the unsuffixed "opt"
the claim requires. -/
theorem C7_counterexample :
    ((noPreStageMaker.make sampleStore 0 DirVal.nodir).1.jobs.map Job.name
      = ["opt 2"]) ∧
    ¬ ((noPreStageMaker.make sampleStore 0 DirVal.nodir).1.jobs.map Job.name
      = ["opt"]) := by
  constructor
  · rfl
  · intro h
    simp [noPreStageMaker, DoubleOptMaker.make, BaseQCMaker.make] at h

/-- Claim C7 as amended: with the first-stage sub-maker absent, the flow
contains exactly one stage job, but its name does carry the stage-count
suffix " 2" (applied unconditionally), and the flow's designated output is
that job's output. -/
theorem C7_amended_single_job_suffixed (self : DoubleOptMaker)
    (h : self.opt_maker1 = none) (store : MolStore) (molecule : Nat)
    (prev_dir : DirVal) :
    ∃ j : Job,
      (self.make store molecule prev_dir).1.jobs = [j] ∧
      j.name = self.opt_maker2.name ++ " 2" ∧
      (self.make store molecule prev_dir).1.output =
        FlowOutput.single j.outputRef := by
  refine ⟨⟨0, self.opt_maker2.name ++ " 2", BVal.obj molecule, prev_dir⟩,
    ?_, rfl, ?_⟩ <;>
    simp [DoubleOptMaker.make, h, BaseQCMaker.make, Job.outputRef]

/-- Witness for the amended C7 at the no-pre-stage configuration. -/
theorem C7_amended_witness :
    ∃ j : Job,
      (noPreStageMaker.make sampleStore 0 DirVal.nodir).1.jobs = [j] ∧
      j.name = noPreStageMaker.opt_maker2.name ++ " 2" ∧
      (noPreStageMaker.make sampleStore 0 DirVal.nodir).1.output =
        FlowOutput.single j.outputRef :=
  C7_amended_single_job_suffixed noPreStageMaker rfl sampleStore 0 DirVal.nodir

/-- Claim C8: the two-phase composite's designated output is a mapping with
exactly the keys "opt" and "freq", bound to the optimization job's and the
frequency job's future outputs respectively. -/
theorem C8_freq_opt_output_mapping (self : FrequencyOptMaker)
    (store : MolStore) (molecule : Nat) (prev_dir : DirVal) :
    ∃ opt freq : Job,
      (self.make store molecule prev_dir).1.jobs = [opt, freq] ∧
      (self.make store molecule prev_dir).1.output =
        FlowOutput.mapping [("opt", opt.outputRef), ("freq", freq.outputRef)] :=
  ⟨_, _, rfl, rfl⟩

/-- Claim C9: no `make` of the three composite makers mutates the caller's
molecule store: the store component of each result equals the input store,
so in particular the caller's molecule object is unchanged (the iterative
composite raises before its deepcopy-and-translate body ever runs, and that
body only ever translates a fresh copy). -/
theorem C9_no_caller_molecule_mutation (d : DoubleOptMaker)
    (fo : FrequencyOptMaker) (ff : FrequencyOptFlatteningMaker)
    (store : MolStore) (molecule : Nat) (prev_dir : DirVal) :
    (d.make store molecule prev_dir).2 = store ∧
    (fo.make store molecule prev_dir).2 = store ∧
    (ff.make store molecule prev_dir).2 = store := by
  refine ⟨?_, rfl, ?_⟩
  · cases h : d.opt_maker1 <;> simp [DoubleOptMaker.make, h]
  · rw [flatteningMake_eq_err]

/-- Claim C10: `DoubleOptMaker.from_opt_maker` passes the keyword arguments
`relax_maker1` / `relax_maker2` to a constructor whose fields are
`opt_maker1` / `opt_maker2`, so it raises `TypeError` for every argument and
never returns an instance. -/
theorem C10_from_opt_maker_always_raises (opt_maker : BaseQCMaker) :
    DoubleOptMaker.from_opt_maker opt_maker =
      Except.error (PyError.typeError
        "init got an unexpected keyword argument relax_maker1") := by
  rfl

end Atomate2QChem
